import Mathlib

/-!
Verification of the portfolio accounting engine in `src/core/portfolio.py`
(class `NaivePortfolio`).

Modelling conventions:
* Python `float` money amounts and prices are modelled by exact rationals
  (`Rat`); the claims under study are exact-arithmetic statements and no claim
  depends on IEEE-754 rounding.
* Python dictionaries keyed by instrument symbol (`current_positions`,
  `current_holdings`, the per-bar records) are modelled as total functions
  `String → _`; the engine only ever reads keys belonging to `symbol_list`.
* The market-data collaborator `self.bars` is external (spec §1): its two
  reads, `get_latest_bar_datetime` and `get_latest_bar_value(s, "close")`,
  become explicit parameters `latest_datetime : Nat` and
  `close : String → Rat` of the operations that perform them.
* The shared event queue is external: `update_signal` returns the list of
  items it puts on the queue instead of mutating a queue object.
* Fallible Python code (a division that can raise `ZeroDivisionError`)
  returns `Option`.
-/

/-- Modelled from the spec: `SignalEvent` lives in `src/core/event.py`,
which is not part of the sources; spec §6 lists the fields the engine reads:
`type=SIGNAL`, `symbol`, `signal_type ∈ {LONG, SHORT, EXIT}`, `quantity`. -/
structure SignalEvent where
  type : String
  symbol : String
  signal_type : String
  quantity : Int
deriving Repr, DecidableEq

/-- Modelled from the spec: `OrderEvent` lives in `src/core/event.py`, which
is not part of the sources; spec §6 lists `symbol`, `quantity`,
`direction ∈ {BUY, SELL}` plus an identifier assigned by the order-creation
collaborator. `generate_naive_order` constructs one as
`OrderEvent(signal, quantity, direction)`, taking the symbol from the signal.
The `order_id` and the realized `profit` (populated by the execution
collaborator, read by `output_summary_stats`) are carried on the registered
order object. -/
structure OrderEvent where
  symbol : String
  quantity : Int
  direction : String
deriving Repr, DecidableEq

/-- An order object as it arrives attached to a fill: it carries the
identifier used as the order-registry key and the realized `profit` field
that `output_summary_stats` reads from the order history. -/
structure RegisteredOrder where
  order_id : Nat
  symbol : String
  quantity : Int
  direction : String
  profit : Rat
deriving Repr, DecidableEq

/-- Modelled from the spec: `FillEvent` lives in `src/core/event.py`, which
is not part of the sources; spec §6 lists `type=FILL`, `symbol`,
`direction ∈ {BUY, SELL}`, `quantity`, `commission`, `order`.  The
`fill_price` field is the "fill's own price" named by spec §4.1
(`apply_fill(symbol, direction, quantity, commission, fill_price)`); the
engine code in `src/core/portfolio.py` never reads it (see
`update_holdings_from_fill`, which prices the fill at the latest bar close
instead). -/
structure FillEvent where
  type : String
  symbol : String
  direction : String
  quantity : Int
  commission : Rat
  fill_price : Rat
  order : RegisteredOrder
deriving Repr, DecidableEq

/-- One record of the `all_positions` list: a `datetime` key plus one signed
integer quantity per symbol. -/
structure PositionsRecord where
  datetime : Nat
  pos : String → Int

/-- One record of the `all_holdings` list (and also the shape of
`current_holdings`, which has no `datetime` key and whose `datetime` field is
ignored): per-symbol market value plus `cash`, `commission`, `total`. -/
structure HoldingsRecord where
  datetime : Nat
  value : String → Rat
  cash : Rat
  commission : Rat
  total : Rat
deriving Inhabited

/-- The flattened fill record appended to `all_fills` by `update_fill`:
`vars(event)` with the order reference replaced by its identifier. -/
structure FillRecord where
  type : String
  symbol : String
  direction : String
  quantity : Int
  commission : Rat
  fill_price : Rat
  order : Nat
deriving Repr, DecidableEq

/-- The mutable state of a `NaivePortfolio` (the `bars` and `events`
collaborators are external and appear as operation parameters). -/
structure NaivePortfolio where
  symbol_list : List String
  start_date : Nat
  initial_capital : Rat
  current_positions : String → Int
  current_holdings : HoldingsRecord
  all_positions : List PositionsRecord
  all_holdings : List HoldingsRecord
  all_orders : List (Nat × RegisteredOrder)
  all_fills : List FillRecord

/-- Python-dict insertion on the order registry: overwrite the value if the
key is present (keeping its position), else append — last write wins. -/
def dict_insert (d : List (Nat × RegisteredOrder)) (key : Nat)
    (v : RegisteredOrder) : List (Nat × RegisteredOrder) :=
  if d.any (fun kv => kv.1 == key) then
    d.map (fun kv => if kv.1 = key then (key, v) else kv)
  else d ++ [(key, v)]

/-- `NaivePortfolio.construct_all_positions`: one seed record, every symbol
at quantity 0, keyed by the start date. -/
def construct_all_positions (start_date : Nat) : List PositionsRecord :=
  [{ datetime := start_date, pos := fun _ => 0 }]

/-- `NaivePortfolio.construct_all_holdings`: one seed record, every symbol
at value 0.0, `cash = total = initial_capital`, `commission = 0.0`. -/
def construct_all_holdings (start_date : Nat) (initial_capital : Rat) :
    List HoldingsRecord :=
  [{ datetime := start_date, value := fun _ => 0, cash := initial_capital,
     commission := 0, total := initial_capital }]

/-- `NaivePortfolio.construct_current_holdings` (no datetime key in the
Python dict; the field is unused here). -/
def construct_current_holdings (initial_capital : Rat) : HoldingsRecord :=
  { datetime := 0, value := fun _ => 0, cash := initial_capital,
    commission := 0, total := initial_capital }

/-- `NaivePortfolio.__init__` (the diagnostic `print` calls have no
state effect). -/
def naive_portfolio (symbol_list : List String) (start_date : Nat)
    (initial_capital : Rat) : NaivePortfolio :=
  { symbol_list := symbol_list
    start_date := start_date
    initial_capital := initial_capital
    current_positions := fun _ => 0
    current_holdings := construct_current_holdings initial_capital
    all_positions := construct_all_positions start_date
    all_holdings := construct_all_holdings start_date initial_capital
    all_orders := []
    all_fills := [] }

/-- `NaivePortfolio.update_timeindex`: append one positions record (a copy of
`current_positions`) and one holdings record where each symbol is marked at
`current_positions[s] * close(s)` and `total` starts from `cash` and
accumulates the market values.  `latest_datetime` stands for
`self.bars.get_latest_bar_datetime(self.symbol_list[0])` and `close s` for
`self.bars.get_latest_bar_value(s, "close")`. -/
def update_timeindex (p : NaivePortfolio) (latest_datetime : Nat)
    (close : String → Rat) : NaivePortfolio :=
  let dp : PositionsRecord :=
    { datetime := latest_datetime
      pos := (p.symbol_list.foldl
        (fun d s => Function.update d s (p.current_positions s))
        (fun _ => 0)) }
  let dh0 : HoldingsRecord :=
    { datetime := latest_datetime
      value := fun _ => 0
      cash := p.current_holdings.cash
      commission := p.current_holdings.commission
      total := p.current_holdings.cash }
  let dh : HoldingsRecord := p.symbol_list.foldl
    (fun d s =>
      let market_value : Rat := (p.current_positions s : Rat) * close s
      { d with value := (Function.update d.value s market_value)
               total := d.total + market_value })
    dh0
  { p with all_positions := p.all_positions ++ [dp]
           all_holdings := p.all_holdings ++ [dh] }

/-- `NaivePortfolio.update_positions_from_fill`: `fill_dir` is 0, overwritten
to +1 on BUY and to −1 on SELL by two independent `if` statements;
`current_positions[fill.symbol] += fill_dir * fill.quantity`. -/
def update_positions_from_fill (p : NaivePortfolio) (fill : FillEvent) :
    NaivePortfolio :=
  let fill_dir : Int := 0
  let fill_dir : Int := if fill.direction = "BUY" then 1 else fill_dir
  let fill_dir : Int := if fill.direction = "SELL" then -1 else fill_dir
  { p with current_positions :=
      (Function.update p.current_positions fill.symbol
        (p.current_positions fill.symbol + fill_dir * fill.quantity)) }

/-- `NaivePortfolio.update_holdings_from_fill`: same `fill_dir` computation;
the fill is priced at `fill_cost = self.bars.get_latest_bar_value(fill.symbol,
"close")` (the source comments that the true fill cost is unknown in
simulation), `cost = fill_dir * fill_cost * fill.quantity`, then
`value[symbol] += cost`, `commission += fill.commission`,
`cash -= (cost + commission)`, `total -= (cost + commission)`. -/
def update_holdings_from_fill (p : NaivePortfolio) (fill : FillEvent)
    (close : String → Rat) : NaivePortfolio :=
  let fill_dir : Int := 0
  let fill_dir : Int := if fill.direction = "BUY" then 1 else fill_dir
  let fill_dir : Int := if fill.direction = "SELL" then -1 else fill_dir
  let fill_cost : Rat := close fill.symbol
  let cost : Rat := (fill_dir : Rat) * fill_cost * (fill.quantity : Rat)
  { p with current_holdings :=
      { p.current_holdings with
          value := (Function.update p.current_holdings.value fill.symbol
            (p.current_holdings.value fill.symbol + cost))
          commission := p.current_holdings.commission + fill.commission
          cash := p.current_holdings.cash - (cost + fill.commission)
          total := p.current_holdings.total - (cost + fill.commission) } }

/-- `NaivePortfolio.update_orders_from_fill`:
`self.all_orders[order.order_id] = order`. -/
def update_orders_from_fill (p : NaivePortfolio) (fill : FillEvent) :
    NaivePortfolio :=
  { p with all_orders :=
      (dict_insert p.all_orders fill.order.order_id fill.order) }

/-- The flattened record `vars(event)` with `fill['order'] = order.order_id`. -/
def flatten_fill (event : FillEvent) : FillRecord :=
  { type := event.type
    symbol := event.symbol
    direction := event.direction
    quantity := event.quantity
    commission := event.commission
    fill_price := event.fill_price
    order := event.order.order_id }

/-- `NaivePortfolio.update_fill`: guarded by `event.type == 'FILL'`; applies
the position, holdings and order-registry updates in order, then appends the
flattened fill record to `all_fills`. -/
def update_fill (p : NaivePortfolio) (event : FillEvent)
    (close : String → Rat) : NaivePortfolio :=
  if event.type = "FILL" then
    let p1 := update_positions_from_fill p event
    let p2 := update_holdings_from_fill p1 event close
    let p3 := update_orders_from_fill p2 event
    { p3 with all_fills := p3.all_fills ++ [flatten_fill event] }
  else p

/-- `NaivePortfolio.generate_naive_order`: `order` starts as `None` and is
overwritten by four independent `if` statements keyed on
`signal.signal_type` and `cur_quantity = current_positions[signal.symbol]`. -/
def generate_naive_order (p : NaivePortfolio) (signal : SignalEvent) :
    Option OrderEvent :=
  let order : Option OrderEvent := none
  let direction := signal.signal_type
  let cur_quantity := p.current_positions signal.symbol
  let order := if direction = "LONG" then
    some { symbol := signal.symbol, quantity := signal.quantity,
           direction := "BUY" } else order
  let order := if direction = "SHORT" then
    some { symbol := signal.symbol, quantity := signal.quantity,
           direction := "SELL" } else order
  let order := if direction = "EXIT" ∧ cur_quantity > 0 then
    some { symbol := signal.symbol, quantity := |cur_quantity|,
           direction := "SELL" } else order
  let order := if direction = "EXIT" ∧ cur_quantity < 0 then
    some { symbol := signal.symbol, quantity := |cur_quantity|,
           direction := "BUY" } else order
  order

/-- `NaivePortfolio.update_signal`: when `event.type == 'SIGNAL'` the result
of `generate_naive_order` is put on the event queue unconditionally (even
when it is `None`).  The returned list is the sequence of `self.events.put`
calls performed. -/
def update_signal (p : NaivePortfolio) (event : SignalEvent) :
    List (Option OrderEvent) :=
  if event.type = "SIGNAL" then [generate_naive_order p event] else []

/-- Elementwise pandas `pct_change` on the `total` column, after the first
entry: each entry is `cur / prev - 1` (pandas computes
`self / self.shift(1) - 1`), `prev` being the previous entry. -/
def pct_change_rest (prev : Rat) : List Rat → List (Option Rat)
  | [] => []
  | t :: rest => some (t / prev - 1) :: pct_change_rest t rest

/-- pandas `Series.pct_change` on the `total` column
(`curve['returns'] = curve['total'].pct_change()`): the first entry is `NaN`
(no prior value), modelled as `none`; each later entry is
`total_t / total_(t-1) - 1`. -/
def pct_change : List Rat → List (Option Rat)
  | [] => []
  | t0 :: rest => none :: pct_change_rest t0 rest

/-- pandas `Series.cumprod` with its default `skipna=True`: `NaN` entries
stay `NaN` in place and do not enter the running product. -/
def cumprod_skipna_aux (acc : Rat) : List (Option Rat) → List (Option Rat)
  | [] => []
  | none :: rest => none :: cumprod_skipna_aux acc rest
  | some v :: rest => some (acc * v) :: cumprod_skipna_aux (acc * v) rest

/-- pandas `Series.cumprod` (default `skipna=True`), running product
starting at 1. -/
def cumprod_skipna (xs : List (Option Rat)) : List (Option Rat) :=
  cumprod_skipna_aux 1 xs

/-- `NaivePortfolio.create_equity_curve_dataframe` restricted to the two
derived columns it adds, as functions of the `total` column of
`all_holdings`: `returns = total.pct_change()` and
`equity_curve = (1.0 + returns).cumprod()`.  Returns the pair
(`returns` column, `equity_curve` column). -/
def create_equity_curve (totals : List Rat) :
    List (Option Rat) × List (Option Rat) :=
  let returns := pct_change totals
  let equity_curve :=
    cumprod_skipna (returns.map (Option.map (fun r => 1 + r)))
  (returns, equity_curve)

/-- `NaivePortfolio.create_order_history_dataframe`: one row per registered
order, in registry (insertion) order — `self.all_orders.values()`. -/
def create_order_history (p : NaivePortfolio) : List RegisteredOrder :=
  p.all_orders.map (fun kv => kv.2)

/-- Python true division: raises `ZeroDivisionError` when the denominator is
zero, modelled as `none`. -/
def py_div (a b : Rat) : Option Rat :=
  if b = 0 then none else some (a / b)

/-- The trade-count / win-rate computation of
`NaivePortfolio.output_summary_stats`:
`trade_no = len(self.order_history)` and
`winrate = len(self.order_history[self.order_history['profit'] > 0])/trade_no`
(the subsequent `round(·, 3)` and string formatting cannot raise and are not
needed by any claim; the Sharpe/drawdown/profit-sum lines are either external
collaborators or non-raising sums).  Returns `none` when the division raises
`ZeroDivisionError`. -/
def output_summary_trade_stats (order_history : List RegisteredOrder) :
    Option (Nat × Rat) :=
  let trade_no := order_history.length
  match py_div ((order_history.filter (fun o => 0 < o.profit)).length : Rat)
      (trade_no : Rat) with
  | none => none
  | some winrate => some (trade_no, winrate)

/-- The order-sizing table of spec §4.3, written from the spec's words, to be
compared with `generate_naive_order` (refinement): LONG ↦ BUY of the signal
quantity, SHORT ↦ SELL of the signal quantity, EXIT branches on the sign of
the current position, anything else yields no order. -/
def naive_order_spec (pos : Int) (signal : SignalEvent) : Option OrderEvent :=
  if signal.signal_type = "LONG" then
    some { symbol := signal.symbol, quantity := signal.quantity,
           direction := "BUY" }
  else if signal.signal_type = "SHORT" then
    some { symbol := signal.symbol, quantity := signal.quantity,
           direction := "SELL" }
  else if signal.signal_type = "EXIT" then
    if 0 < pos then
      some { symbol := signal.symbol, quantity := |pos|,
             direction := "SELL" }
    else if pos < 0 then
      some { symbol := signal.symbol, quantity := |pos|,
             direction := "BUY" }
    else none
  else none

/-- Signed quantity of a fill as the claims state it: `+quantity` for BUY,
`−quantity` for SELL. -/
def signed_quantity (f : FillEvent) : Int :=
  if f.direction = "BUY" then f.quantity else -f.quantity

/-! Concrete instances used to exercise the theorems. -/

/-- A registered order attached to the concrete fills below. -/
def order1 : RegisteredOrder :=
  { order_id := 1, symbol := "X", quantity := 10, direction := "BUY",
    profit := 0 }

/-- A freshly constructed single-instrument portfolio: symbol list `["X"]`,
start date 0, initial capital 100000. -/
def p_init : NaivePortfolio := naive_portfolio ["X"] 0 100000

/-- A BUY fill of 10 units of X with commission 1.  Its carried
`fill_price` (999) deliberately differs from the latest close the market
data reports at fill time (50). -/
def fill_buy10 : FillEvent :=
  { type := "FILL", symbol := "X", direction := "BUY", quantity := 10,
    commission := 1, fill_price := 999, order := order1 }

/-- A SELL fill of 10 units of X with commission 1. -/
def fill_sell10 : FillEvent :=
  { type := "FILL", symbol := "X", direction := "SELL", quantity := 10,
    commission := 1, fill_price := 999, order := order1 }

/-- A fill-shaped event whose `type` is not FILL (only the `type` field is
read before the guard rejects it). -/
def market_event : FillEvent :=
  { type := "MARKET", symbol := "X", direction := "BUY", quantity := 3,
    commission := 2, fill_price := 7, order := order1 }

/-- A FILL event with an unrecognized direction. -/
def fill_hold : FillEvent :=
  { type := "FILL", symbol := "X", direction := "HOLD", quantity := 4,
    commission := 3, fill_price := 8, order := order1 }

/-- An EXIT signal on X. -/
def signal_exit : SignalEvent :=
  { type := "SIGNAL", symbol := "X", signal_type := "EXIT", quantity := 5 }

/-- Market data reporting a latest close of 50 for every symbol. -/
def close50 : String → Rat := fun _ => 50

/-- Market data reporting a latest close of 55 for every symbol. -/
def close55 : String → Rat := fun _ => 55

/-- Scenario A, step 1: the BUY fill applied when the latest close is 50. -/
def scenarioA_p1 : NaivePortfolio := update_fill p_init fill_buy10 close50

/-- Scenario A, step 2: the next bar's snapshot at close 55. -/
def scenarioA_p2 : NaivePortfolio := update_timeindex scenarioA_p1 1 close55

/-- The holdings record appended by a snapshot of the fresh portfolio at
close 50 (used to exercise the snapshot invariant on a concrete input). -/
def snapshot_dh : HoldingsRecord :=
  (((update_timeindex p_init 1 close50).all_holdings).getLast?).getD default

/-! Theorems. -/

/-- C1 (counterexample): applying the BUY fill `fill_buy10`, which carries
`fill_price = 999`, when the market's latest close is 50 does not increase
the holdings value of X by `sign * quantity * fill_price = 9990` as the
claim states: `update_holdings_from_fill` prices the fill at the latest
close, giving an increase of 500. -/
theorem C1_counterexample_fill_price_unused :
    ¬ ((update_holdings_from_fill p_init fill_buy10 close50).current_holdings.value
          fill_buy10.symbol
        = p_init.current_holdings.value fill_buy10.symbol
          + 1 * (fill_buy10.quantity : Rat) * fill_buy10.fill_price) := by
  norm_num [update_holdings_from_fill, p_init, naive_portfolio,
    construct_current_holdings, fill_buy10, close50, Function.update,
    show ("BUY" : String) ≠ "SELL" by decide]

/-- C1 (amended): for every fill applied with direction BUY (sign +1) or
SELL (sign −1), the holdings update prices the fill at the market data's
latest close for the fill's symbol, not at a price carried on the fill: the
instrument's holdings value increases by `sign*quantity*close(symbol)`,
commission increases by the fill's commission, and cash and total each
decrease by `sign*quantity*close(symbol) + commission`. -/
theorem C1_holdings_update_uses_latest_close (p : NaivePortfolio)
    (f : FillEvent) (close : String → Rat) (sign : Int)
    (h : (f.direction = "BUY" ∧ sign = 1) ∨
         (f.direction = "SELL" ∧ sign = -1)) :
    (update_holdings_from_fill p f close).current_holdings.value f.symbol
      = p.current_holdings.value f.symbol
        + (sign : Rat) * (f.quantity : Rat) * close f.symbol ∧
    (update_holdings_from_fill p f close).current_holdings.commission
      = p.current_holdings.commission + f.commission ∧
    (update_holdings_from_fill p f close).current_holdings.cash
      = p.current_holdings.cash
        - ((sign : Rat) * (f.quantity : Rat) * close f.symbol
            + f.commission) ∧
    (update_holdings_from_fill p f close).current_holdings.total
      = p.current_holdings.total
        - ((sign : Rat) * (f.quantity : Rat) * close f.symbol
            + f.commission) := by
  rcases h with ⟨hd, rfl⟩ | ⟨hd, rfl⟩ <;>
    refine ⟨?_, ?_, ?_, ?_⟩ <;>
    simp [update_holdings_from_fill, hd, Function.update_same] <;>
    ring

/-- C1 (witness): the amended statement at the concrete BUY fill of 10
units of X with commission 1 and latest close 50. -/
theorem C1_amended_witness :
    (update_holdings_from_fill p_init fill_buy10 close50).current_holdings.value
        fill_buy10.symbol
      = p_init.current_holdings.value fill_buy10.symbol
        + ((1 : Int) : Rat) * (fill_buy10.quantity : Rat)
            * close50 fill_buy10.symbol ∧
    (update_holdings_from_fill p_init fill_buy10 close50).current_holdings.commission
      = p_init.current_holdings.commission + fill_buy10.commission ∧
    (update_holdings_from_fill p_init fill_buy10 close50).current_holdings.cash
      = p_init.current_holdings.cash
        - (((1 : Int) : Rat) * (fill_buy10.quantity : Rat)
            * close50 fill_buy10.symbol + fill_buy10.commission) ∧
    (update_holdings_from_fill p_init fill_buy10 close50).current_holdings.total
      = p_init.current_holdings.total
        - (((1 : Int) : Rat) * (fill_buy10.quantity : Rat)
            * close50 fill_buy10.symbol + fill_buy10.commission) :=
  C1_holdings_update_uses_latest_close p_init fill_buy10 close50 1
    (Or.inl ⟨rfl, rfl⟩)

/-- C2 (code_bug evidence): with zero orders recorded, the
summary-statistics computation divides the number of winning orders by
`trade_no = 0`, raising `ZeroDivisionError` (modelled as `none`) instead of
reporting trade count 0 with an undefined win rate. -/
theorem C2_summary_raises_on_zero_orders :
    output_summary_trade_stats (create_order_history p_init) = none := by
  norm_num [output_summary_trade_stats, create_order_history, p_init,
    naive_portfolio, py_div]

/-- C8: an event whose `type` is not FILL is ignored by `update_fill`:
current positions, current holdings, the order registry and the fill log
are all left unchanged. -/
theorem C8_nonfill_event_ignored (p : NaivePortfolio) (event : FillEvent)
    (close : String → Rat) (h : event.type ≠ "FILL") :
    (update_fill p event close).current_positions = p.current_positions ∧
    (update_fill p event close).current_holdings = p.current_holdings ∧
    (update_fill p event close).all_orders = p.all_orders ∧
    (update_fill p event close).all_fills = p.all_fills := by
  simp [update_fill, h]

/-- C8 (witness): a MARKET-typed event passed to `update_fill` changes
nothing. -/
theorem C8_witness :
    (update_fill p_init market_event close50).current_positions
      = p_init.current_positions ∧
    (update_fill p_init market_event close50).current_holdings
      = p_init.current_holdings ∧
    (update_fill p_init market_event close50).all_orders
      = p_init.all_orders ∧
    (update_fill p_init market_event close50).all_fills
      = p_init.all_fills :=
  C8_nonfill_event_ignored p_init market_event close50 (by decide)

/-- C10: a FILL event whose direction is neither BUY nor SELL gets
`fill_dir = 0`: positions and per-instrument holdings values are unchanged,
while commission still increases by the fill's commission and cash and
total decrease by the fill's commission; nothing fails. -/
theorem C10_unknown_direction_commission_only (p : NaivePortfolio)
    (event : FillEvent) (close : String → Rat) (ht : event.type = "FILL")
    (hb : event.direction ≠ "BUY") (hs : event.direction ≠ "SELL") :
    (update_fill p event close).current_positions = p.current_positions ∧
    (update_fill p event close).current_holdings.value
      = p.current_holdings.value ∧
    (update_fill p event close).current_holdings.commission
      = p.current_holdings.commission + event.commission ∧
    (update_fill p event close).current_holdings.cash
      = p.current_holdings.cash - event.commission ∧
    (update_fill p event close).current_holdings.total
      = p.current_holdings.total - event.commission := by
  refine ⟨?_, ?_, ?_, ?_, ?_⟩ <;>
    simp [update_fill, ht, update_positions_from_fill,
      update_holdings_from_fill, update_orders_from_fill, hb, hs,
      Function.update_eq_self]

/-- C10 (witness): the concrete HOLD-direction fill only moves its
commission of 3. -/
theorem C10_witness :
    (update_fill p_init fill_hold close50).current_positions
      = p_init.current_positions ∧
    (update_fill p_init fill_hold close50).current_holdings.value
      = p_init.current_holdings.value ∧
    (update_fill p_init fill_hold close50).current_holdings.commission
      = p_init.current_holdings.commission + fill_hold.commission ∧
    (update_fill p_init fill_hold close50).current_holdings.cash
      = p_init.current_holdings.cash - fill_hold.commission ∧
    (update_fill p_init fill_hold close50).current_holdings.total
      = p_init.current_holdings.total - fill_hold.commission :=
  C10_unknown_direction_commission_only p_init fill_hold close50 rfl
    (by decide) (by decide)

/-- One BUY/SELL fill moves the position of its own symbol by its signed
quantity. -/
lemma positions_step (p : NaivePortfolio) (sym : String) (f : FillEvent)
    (hsym : f.symbol = sym)
    (hdir : f.direction = "BUY" ∨ f.direction = "SELL") :
    (update_positions_from_fill p f).current_positions sym
      = p.current_positions sym + signed_quantity f := by
  rcases hdir with hd | hd <;>
    simp [update_positions_from_fill, signed_quantity, hsym, hd,
      Function.update_same]

/-- Folding `update_positions_from_fill` over fills on one symbol adds the
sum of signed quantities to that symbol's position. -/
lemma positions_foldl_sum (sym : String) :
    ∀ (fills : List FillEvent) (p : NaivePortfolio),
    (∀ f ∈ fills, f.symbol = sym ∧
        (f.direction = "BUY" ∨ f.direction = "SELL")) →
    (fills.foldl update_positions_from_fill p).current_positions sym
      = p.current_positions sym + (fills.map signed_quantity).sum := by
  intro fills
  induction fills with
  | nil => intro p _; simp
  | cons f rest ih =>
    intro p hf
    obtain ⟨hsym, hdir⟩ := hf f (by simp)
    have hrest : ∀ g ∈ rest, g.symbol = sym ∧
        (g.direction = "BUY" ∨ g.direction = "SELL") :=
      fun g hg => hf g (by simp [hg])
    rw [List.foldl_cons, ih _ hrest, positions_step p sym f hsym hdir,
      List.map_cons, List.sum_cons]
    ring

/-- C4: starting from a flat position, any sequence of BUY/SELL fills on one
instrument leaves its final position equal to the sum of the signed fill
quantities (+quantity for BUY, −quantity for SELL). -/
theorem C4_position_is_signed_sum (p : NaivePortfolio) (sym : String)
    (fills : List FillEvent) (h0 : p.current_positions sym = 0)
    (hf : ∀ f ∈ fills, f.symbol = sym ∧
        (f.direction = "BUY" ∨ f.direction = "SELL")) :
    (fills.foldl update_positions_from_fill p).current_positions sym
      = (fills.map signed_quantity).sum := by
  rw [positions_foldl_sum sym fills p hf, h0, zero_add]

/-- C4 (witness): a BUY of 10 followed by a SELL of 10 on X returns the
position to exactly zero (the signed sum of the two fills). -/
theorem C4_witness :
    (([fill_buy10, fill_sell10].foldl update_positions_from_fill
        p_init).current_positions
      ("X"))
      = (([fill_buy10, fill_sell10]).map signed_quantity).sum :=
  C4_position_is_signed_sum p_init ("X") [fill_buy10, fill_sell10] rfl
    (by decide)

/-- The sequential overwriting `if` statements of `generate_naive_order`
implement the mutually exclusive order-sizing table `naive_order_spec`. -/
lemma generate_naive_order_eq_spec (p : NaivePortfolio)
    (signal : SignalEvent) :
    generate_naive_order p signal
      = naive_order_spec (p.current_positions signal.symbol) signal := by
  unfold generate_naive_order naive_order_spec
  by_cases hl : signal.signal_type = "LONG" <;>
    by_cases hs : signal.signal_type = "SHORT" <;>
    by_cases he : signal.signal_type = "EXIT" <;>
    simp_all
  all_goals
    rcases lt_trichotomy (p.current_positions signal.symbol) 0 with
      hq | hq | hq <;>
    first
    | simp [hq, lt_asymm hq]
    | simp [hq]

/-- C5: `generate_naive_order` is the pure order-sizing table of the spec:
LONG yields a BUY of the signal quantity, SHORT a SELL of the signal
quantity, EXIT branches on the sign of the current position (SELL abs for
long, BUY abs for short, no order when flat), anything else yields no
order; the if/else-structured `naive_order_spec` makes the rules mutually
exclusive, so exactly one rule fires. -/
theorem C5_order_sizing_table (p : NaivePortfolio) (signal : SignalEvent) :
    generate_naive_order p signal
      = naive_order_spec (p.current_positions signal.symbol) signal :=
  generate_naive_order_eq_spec p signal

/-- C9: for a SIGNAL-typed event, `update_signal` puts exactly one item on
the event queue, and that item is `None` whenever no sizing rule fires:
for an EXIT signal with a flat position and for an unrecognized signal
kind. -/
theorem C9_signal_puts_exactly_one (p : NaivePortfolio)
    (event : SignalEvent) (h : event.type = "SIGNAL") :
    (update_signal p event).length = 1 ∧
    (((event.signal_type = "EXIT" ∧
          p.current_positions event.symbol = 0) ∨
      (event.signal_type ≠ "LONG" ∧ event.signal_type ≠ "SHORT" ∧
          event.signal_type ≠ "EXIT")) →
      update_signal p event = [none]) := by
  constructor
  · simp [update_signal, h]
  · intro hc
    have hnone : generate_naive_order p event = none := by
      rw [generate_naive_order_eq_spec]
      rcases hc with ⟨he, hz⟩ | ⟨h1, h2, h3⟩
      · simp [naive_order_spec, he, hz]
      · simp [naive_order_spec, h1, h2, h3]
    simp [update_signal, h, hnone]

/-- C9 (witness): an EXIT signal with a flat position puts exactly the
single item `None` on the queue. -/
theorem C9_witness :
    (update_signal p_init signal_exit).length = 1 ∧
    update_signal p_init signal_exit = [none] :=
  ⟨(C9_signal_puts_exactly_one p_init signal_exit rfl).1,
   (C9_signal_puts_exactly_one p_init signal_exit rfl).2
     (Or.inl ⟨rfl, rfl⟩)⟩

/-- The mark-to-market fold of `update_timeindex` never touches the `cash`
and `commission` fields. -/
lemma holdings_fold_cash_commission (pos : String → Int)
    (close : String → Rat) :
    ∀ (l : List String) (d : HoldingsRecord),
    (l.foldl (fun d s =>
        let market_value : Rat := (pos s : Rat) * close s
        { d with value := (Function.update d.value s market_value)
                 total := d.total + market_value }) d).cash = d.cash ∧
    (l.foldl (fun d s =>
        let market_value : Rat := (pos s : Rat) * close s
        { d with value := (Function.update d.value s market_value)
                 total := d.total + market_value }) d).commission
      = d.commission := by
  intro l
  induction l with
  | nil => intro d; exact ⟨rfl, rfl⟩
  | cons a rest ih => intro d; exact ih _

/-- The mark-to-market fold of `update_timeindex` adds exactly the summed
market values to `total`. -/
lemma holdings_fold_total (pos : String → Int) (close : String → Rat) :
    ∀ (l : List String) (d : HoldingsRecord),
    (l.foldl (fun d s =>
        let market_value : Rat := (pos s : Rat) * close s
        { d with value := (Function.update d.value s market_value)
                 total := d.total + market_value }) d).total
      = d.total + (l.map (fun s => (pos s : Rat) * close s)).sum := by
  intro l
  induction l with
  | nil => intro d; simp
  | cons a rest ih =>
    intro d
    rw [List.foldl_cons, ih]
    simp only [List.map_cons, List.sum_cons]
    show d.total + (pos a : Rat) * close a + _ = _
    ring

/-- After the mark-to-market fold of `update_timeindex`, every symbol of
the processed list holds its market value. -/
lemma holdings_fold_value (pos : String → Int) (close : String → Rat) :
    ∀ (l : List String) (d : HoldingsRecord) (s : String),
    (l.foldl (fun d s =>
        let market_value : Rat := (pos s : Rat) * close s
        { d with value := (Function.update d.value s market_value)
                 total := d.total + market_value }) d).value s
      = if s ∈ l then (pos s : Rat) * close s else d.value s := by
  intro l
  induction l with
  | nil => intro d s; simp
  | cons a rest ih =>
    intro d s
    rw [List.foldl_cons, ih]
    by_cases hmem : s ∈ rest
    · simp [hmem]
    · by_cases hsa : s = a
      · subst hsa
        simp [hmem, Function.update_same]
      · simp [hmem, hsa, Function.update_noteq hsa]

/-- C3: the holdings record appended by `update_timeindex` satisfies
`total = cash + Σ(per-instrument mark-to-market values stored in the same
record)`. -/
theorem C3_snapshot_total_invariant (p : NaivePortfolio) (dt : Nat)
    (close : String → Rat) (dh : HoldingsRecord)
    (h : ((update_timeindex p dt close).all_holdings).getLast? = some dh) :
    dh.total = dh.cash + (p.symbol_list.map dh.value).sum := by
  simp only [update_timeindex, List.getLast?_concat, Option.some.injEq] at h
  subst h
  rw [holdings_fold_total p.current_positions close,
    (holdings_fold_cash_commission p.current_positions close
      p.symbol_list _).1]
  have hmap : ∀ (d : HoldingsRecord), p.symbol_list.map
      (p.symbol_list.foldl (fun d s =>
        let market_value : Rat := (p.current_positions s : Rat) * close s
        { d with value := (Function.update d.value s market_value)
                 total := d.total + market_value }) d).value
      = p.symbol_list.map
          (fun s => (p.current_positions s : Rat) * close s) := by
    intro d
    refine List.map_congr_left (fun s hs => ?_)
    rw [holdings_fold_value p.current_positions close]
    simp [hs]
  rw [hmap]

/-- C3 (witness): the invariant on the snapshot of the fresh portfolio at
close 50. -/
theorem C3_witness :
    snapshot_dh.total
      = snapshot_dh.cash + (p_init.symbol_list.map snapshot_dh.value).sum :=
  C3_snapshot_total_invariant p_init 1 close50 snapshot_dh rfl

/-- Entry `i` of the tail of the return series is
`total_(i+1) / total_i - 1` read off the full series `prev :: l`. -/
lemma pct_change_rest_getElem (l : List Rat) :
    ∀ (prev : Rat) (i : Nat), i < l.length →
    (pct_change_rest prev l)[i]?
      = some (some ((prev :: l).getD (i + 1) 0
          / (prev :: l).getD i 0 - 1)) := by
  induction l with
  | nil => intro prev i h; simp at h
  | cons t rest ih =>
    intro prev i h
    cases i with
    | zero => simp [pct_change_rest]
    | succ j =>
      have hj : j < rest.length := by simpa using h
      simpa [pct_change_rest] using ih t j hj

/-- Running `cumprod` (skipna) over `1 + returns` for the all-defined tail
of the return series yields, at entry `i`, the product of the growth
factors of entries `1 .. i+1` of the full series `prev :: l`. -/
lemma cumprod_growth_getElem (l : List Rat) :
    ∀ (acc prev : Rat) (i : Nat), i < l.length →
    (cumprod_skipna_aux acc
        ((pct_change_rest prev l).map (Option.map (fun r => 1 + r))))[i]?
      = some (some (acc * ∏ j ∈ Finset.range (i + 1),
          (1 + ((prev :: l).getD (j + 1) 0
            / (prev :: l).getD j 0 - 1)))) := by
  induction l with
  | nil => intro acc prev i h; simp at h
  | cons t rest ih =>
    intro acc prev i h
    cases i with
    | zero =>
      simp [pct_change_rest, cumprod_skipna_aux, Finset.prod_range_one]
    | succ j =>
      have hj : j < rest.length := by simpa using h
      have step := ih (acc * (1 + (t / prev - 1))) t j hj
      simp only [pct_change_rest, List.map_cons, Option.map_some,
        cumprod_skipna_aux, List.getElem?_cons_succ]
      rw [step]
      simp only [Option.some.injEq]
      conv_rhs => rw [Finset.prod_range_succ']
      simp only [List.getD_cons_succ, List.getD_cons_zero]
      ring

/-- C6: over the snapshot totals, the return column built by
`create_equity_curve` is undefined at index 0 and equals
`total_t / total_(t-1) - 1` at every index `t ≥ 1`, and the equity-curve
column at index `t ≥ 1` is the product of `(1 + return_i)` over the
defined returns `i = 1 .. t`. -/
theorem C6_equity_curve_columns (totals : List Rat) (t : Nat)
    (h1 : 1 ≤ t) (h2 : t < totals.length) :
    (create_equity_curve totals).1[0]? = some none ∧
    (create_equity_curve totals).1[t]?
      = some (some (totals.getD t 0 / totals.getD (t - 1) 0 - 1)) ∧
    (create_equity_curve totals).2[t]?
      = some (some (∏ j ∈ Finset.range t,
          (1 + (totals.getD (j + 1) 0 / totals.getD j 0 - 1)))) := by
  obtain ⟨t0, rest, rfl⟩ : ∃ t0 rest, totals = t0 :: rest := by
    cases totals with
    | nil => simp at h2
    | cons t0 rest => exact ⟨t0, rest, rfl⟩
  obtain ⟨i, rfl⟩ : ∃ i, t = i + 1 := ⟨t - 1, by omega⟩
  have hi : i < rest.length := by simpa using h2
  refine ⟨?_, ?_, ?_⟩
  · simp [create_equity_curve, pct_change]
  · simpa [create_equity_curve, pct_change]
      using pct_change_rest_getElem rest t0 i hi
  · have := cumprod_growth_getElem rest 1 t0 i hi
    simpa [create_equity_curve, pct_change, cumprod_skipna,
      cumprod_skipna_aux] using this

/-- C6 (witness): the three column facts at the concrete total series
`[100, 110, 99]` and index `t = 2`. -/
theorem C6_witness :
    (create_equity_curve [100, 110, 99]).1[0]? = some none ∧
    (create_equity_curve [100, 110, 99]).1[2]?
      = some (some (([100, 110, 99] : List Rat).getD 2 0
          / ([100, 110, 99] : List Rat).getD (2 - 1) 0 - 1)) ∧
    (create_equity_curve [100, 110, 99]).2[2]?
      = some (some (∏ j ∈ Finset.range 2,
          (1 + (([100, 110, 99] : List Rat).getD (j + 1) 0
            / ([100, 110, 99] : List Rat).getD j 0 - 1)))) :=
  C6_equity_curve_columns [100, 110, 99] 2 (by norm_num) (by norm_num)

/-- C7 (scenario A): starting from a single-instrument portfolio on X with
initial capital 100000, one BUY fill of 10 units with commission 1 applied
while the latest close is 50 leaves position[X] = 10 and cash = 99499;
the next bar's snapshot at close 55 records a holdings value of 550 for X
and a total of 100049. -/
theorem C7_scenarioA :
    scenarioA_p1.current_positions ("X") = 10 ∧
    scenarioA_p1.current_holdings.cash = 99499 ∧
    (scenarioA_p2.all_holdings.getLast?.map (fun dh => dh.value ("X")))
      = some 550 ∧
    (scenarioA_p2.all_holdings.getLast?.map (fun dh => dh.total))
      = some 100049 := by
  refine ⟨?_, ?_, ?_, ?_⟩ <;>
    norm_num [scenarioA_p1, scenarioA_p2, p_init, naive_portfolio,
      construct_current_holdings, construct_all_holdings,
      construct_all_positions, update_fill, update_positions_from_fill,
      update_holdings_from_fill, update_orders_from_fill, update_timeindex,
      fill_buy10, close50, close55, Function.update, List.getLast?_concat,
      show ("BUY" : String) ≠ "SELL" by decide]
